import Mathlib

/-!
Zodi-app ledger: a shallow embedding of src/app.py.

The repository is a Flask banking app ("grinapay").  The ledger-relevant
code lives in the route handlers `signup`, `dashboard`, `deposit`,
`withdraw`, `transfer`, `betting` and `internet` of `src/app.py`, backed
by two SQLAlchemy models `User` and `Transaction`.  This file embeds those
routes as pure Lean functions over an explicit ledger state and proves the
specification claims about them.

Modelling decisions, all visible in the definitions below:

* A `Transaction` row keeps the ledger-relevant columns `user_id`,
  `txn_type`, `amount`, `description`.  The autoincrement `id` and the
  `date` column are realised by the position of the row in the append-only
  list `Ledger.txns` (rows are only ever appended, in commit order); no
  claim depends on their concrete values.
* Python float amounts are modelled as exact rationals `ℚ`: the claims
  are about the additive ledger algebra, not about IEEE-754 rounding.
* `float(request.form.get("amount"))` either yields a number or raises
  `TypeError`/`ValueError` (the field is missing or non-numeric).  The
  parse result is passed in as an `Option ℚ`: `none` is the raising case,
  which the routes catch and turn into the "Invalid amount" flash.
* `current_user.transactions` is the SQLAlchemy relationship selecting all
  `Transaction` rows with `user_id == current_user.id`; it is embedded as
  `transactionsOf`.
* Routes answer with a flash message and a redirect; only the flash kind
  matters to the claims, embedded as `OpResult`.  Each operation returns
  the new ledger state together with that result.
-/

/-- One row of the `Transaction` table of `src/app.py` (ledger-relevant
columns). -/
structure Transaction where
  user_id : Nat
  txn_type : String
  amount : ℚ
  description : String
deriving DecidableEq, Repr

/-- One row of the `User` table of `src/app.py` (ledger-relevant columns:
the primary key and the unique `account_number`; `email` is kept because
`signup` checks it for duplicates). -/
structure User where
  id : Nat
  account_number : String
  email : String
deriving DecidableEq, Repr

/-- The ledger state: the `User` table and the append-only `Transaction`
table of the SQLite database. -/
structure Ledger where
  users : List User
  txns : List Transaction
deriving DecidableEq, Repr

/-- Outcome of a route call, identified by the flash message the route
emits before redirecting. -/
inductive OpResult where
  /-- a success flash -/
  | success : OpResult
  /-- the "Invalid amount" flash: `float(...)` raised -/
  | invalidAmount : OpResult
  /-- the "Insufficient funds!" flash -/
  | insufficientFunds : OpResult
  /-- the "Recipient account not found!" flash -/
  | recipientNotFound : OpResult
  /-- the "All fields are required." flash of the `internet` route -/
  | missingFields : OpResult
  /-- a signup validation failure flash -/
  | signupRejected : OpResult
deriving DecidableEq, Repr

/-- `Transaction.query.filter_by(user_id=uid)`, equivalently the
`current_user.transactions` relationship: all transaction rows owned by
the account `uid`, in insertion order. -/
def transactionsOf (L : Ledger) (uid : Nat) : List Transaction :=
  L.txns.filter (fun tx => tx.user_id == uid)

/-- The balance expression used verbatim by `withdraw` (line 354),
`transfer` (line 383) and `betting` (lines 498 to 501):
`sum(tx.amount if tx.txn_type == "Deposit" else -tx.amount for tx in current_user.transactions)`.
The Python `sum` builtin folds `+` over the generator starting from 0. -/
def balanceSum (txns : List Transaction) : ℚ :=
  txns.foldl
    (fun acc tx => acc + (if tx.txn_type == "Deposit" then tx.amount else -tx.amount)) 0

/-- The balance loop of the `dashboard` route (lines 267 to 273): start
from 0.0, add the amount of every `"Deposit"` row, subtract the amount of
every other row. -/
def dashboardBalance (txns : List Transaction) : ℚ :=
  txns.foldl
    (fun total_balance txn =>
      if txn.txn_type == "Deposit" then total_balance + txn.amount
      else total_balance - txn.amount) 0

/-- Derived balance of account `uid` in ledger `L`, as the routes compute
it. -/
def balanceOf (L : Ledger) (uid : Nat) : ℚ :=
  balanceSum (transactionsOf L uid)

/-- Spec-side definition, from the words of the spec (section 3, "Derived
Balance", and section 8): the sum of the amounts of the `"Deposit"`
transactions. -/
def sumDeposits (txns : List Transaction) : ℚ :=
  ((txns.filter (fun tx => tx.txn_type == "Deposit")).map Transaction.amount).sum

/-- Spec-side definition, from the words of the spec: the sum of the
amounts of all non-`"Deposit"` transactions (Withdrawal, Transfer,
Betting Funding, Data Purchase, and any other kind). -/
def sumNonDeposits (txns : List Transaction) : ℚ :=
  ((txns.filter (fun tx => !(tx.txn_type == "Deposit"))).map Transaction.amount).sum

/-- The signed contribution of a single row to the balance: the body of
the generator expression
`tx.amount if tx.txn_type == "Deposit" else -tx.amount`. -/
def txnSigned (tx : Transaction) : ℚ :=
  if tx.txn_type == "Deposit" then tx.amount else -tx.amount

/-!
The route operations of `src/app.py`.  Each operation takes the ledger
state `L` and the logged-in user `cu` (`current_user`).  Form fields
follow the reads the route performs: the amount field arrives as the
result of `float(request.form.get("amount"))` (`none` = the raising
case), text fields as strings where the empty string stands for the
Python-falsy cases (`request.form.get` returning `None` or `""`).
-/

/-- The POST branch of the `deposit` route (lines 329 to 340).  The route
reads only the amount form field; a description field, if the caller
submits one, is never read (`_desc`).  The committed row always carries
the literal description `"Manual deposit"`. -/
def deposit (L : Ledger) (cu : User) (amount? : Option ℚ) (_desc : Option String) :
    Ledger × OpResult :=
  match amount? with
  | none => (L, .invalidAmount)
  | some amount =>
      ({ L with txns :=
          L.txns ++ [⟨cu.id, "Deposit", amount, "Manual deposit"⟩] }, .success)

/-- The POST branch of the `withdraw` route (lines 346 to 363): parse the
amount, compute the balance over `current_user.transactions`, fail with
the "Insufficient funds!" flash when `amount > balance`, otherwise append
one `"Withdrawal"` row with the literal description `"Cash withdrawal"`
(a caller-supplied description field is never read). -/
def withdraw (L : Ledger) (cu : User) (amount? : Option ℚ) (_desc : Option String) :
    Ledger × OpResult :=
  match amount? with
  | none => (L, .invalidAmount)
  | some amount =>
      let balance := balanceSum (transactionsOf L cu.id)
      if amount > balance then (L, .insufficientFunds)
      else
        ({ L with txns :=
            L.txns ++ [⟨cu.id, "Withdrawal", amount, "Cash withdrawal"⟩] }, .success)

/-- The POST branch of the `transfer` route (lines 369 to 404): parse the
amount, look the recipient up by account number
(`User.query.filter_by(account_number=target_account).first()`), fail
with the "Recipient account not found!" flash when no user matches,
compute the balance of the sender, fail with the "Insufficient funds!"
flash when `amount > balance`, otherwise add the `"Transfer"` row of the
sender and the `"Deposit"` row of the recipient and commit both
together. -/
def transfer (L : Ledger) (cu : User) (target_account : String) (amount? : Option ℚ) :
    Ledger × OpResult :=
  match amount? with
  | none => (L, .invalidAmount)
  | some amount =>
      match L.users.find? (fun u => u.account_number == target_account) with
      | none => (L, .recipientNotFound)
      | some recipient =>
          let balance := balanceSum (transactionsOf L cu.id)
          if amount > balance then (L, .insufficientFunds)
          else
            let sender_txn : Transaction :=
              ⟨cu.id, "Transfer", amount, "Transfer to " ++ recipient.account_number⟩
            let recipient_txn : Transaction :=
              ⟨recipient.id, "Deposit", amount, "Transfer from " ++ cu.account_number⟩
            ({ L with txns := L.txns ++ [sender_txn, recipient_txn] }, .success)

/-- The POST branch of the `betting` route (lines 488 to 516): parse the
amount, compute the balance from `current_user.transactions`, fail with
the "Insufficient funds to fund betting account." flash when
`amount > balance`, otherwise append one `"Betting Funding"` row whose
description interpolates the company and the betting account id. -/
def betting (L : Ledger) (cu : User) (company account_id : String) (amount? : Option ℚ) :
    Ledger × OpResult :=
  match amount? with
  | none => (L, .invalidAmount)
  | some amount =>
      let balance := balanceSum (transactionsOf L cu.id)
      if amount > balance then (L, .insufficientFunds)
      else
        ({ L with txns :=
            L.txns ++ [⟨cu.id, "Betting Funding", amount,
              "Funded " ++ company ++ " account (" ++ account_id ++ ")"⟩] }, .success)

/-- The POST branch of the `internet` route (lines 527 to 547): if any of
`phone_number`, `bundle`, `payment_method` is Python-falsy (missing or
empty, modelled as `""`) fail with the "All fields are required." flash;
otherwise append one `"Data Purchase"` row.  `bundleAmount` is the price
the route parses out of the bundle string
(`float(bundle.split("₦")[-1].replace(",", "").strip())`).  Note that the
route performs no balance check before appending. -/
def internet (L : Ledger) (cu : User) (phone_number bundle payment_method : String)
    (bundleAmount : ℚ) : Ledger × OpResult :=
  if phone_number == "" || bundle == "" || payment_method == "" then
    (L, .missingFields)
  else
    ({ L with txns :=
        L.txns ++ [⟨cu.id, "Data Purchase", bundleAmount,
          "Bought " ++ bundle ++ " for " ++ phone_number ++ " on " ++ payment_method⟩] },
      .success)

/-- The POST branch of the `signup` route (lines 162 to 243),
ledger-relevant part: validate (email and password present, passwords
match when a confirmation is given, email not already registered, account
type is `"user"` or `"merchant"`), then insert the new `User` row
(`newId` is the autoincrement primary key, `account_number` the generated
12-digit string) and append the welcome transaction: one `"Deposit"` of
1000.0 with description `"Welcome bonus"`. -/
def signup (L : Ledger) (account_type email raw_password confirm_password : String)
    (newId : Nat) (account_number : String) : Ledger × OpResult :=
  if email == "" || raw_password == "" then (L, .signupRejected)
  else if confirm_password != "" && raw_password != confirm_password then
    (L, .signupRejected)
  else if (L.users.find? (fun u => u.email == email)).isSome then (L, .signupRejected)
  else if account_type == "user" || account_type == "merchant" then
    ({ users := L.users ++ [⟨newId, account_number, email⟩],
       txns := L.txns ++ [⟨newId, "Deposit", 1000, "Welcome bonus"⟩] }, .success)
  else (L, .signupRejected)

/-! Concrete data used by the witnesses. -/

/-- A concrete user for the witnesses. -/
def alice : User := ⟨1, "111111111111", "alice@example.com"⟩

/-- A second concrete user for the witnesses. -/
def bob : User := ⟨2, "222222222222", "bob@example.com"⟩

/-- A two-account ledger: both users carry their welcome deposit. -/
def sampleLedger : Ledger :=
  ⟨[alice, bob],
   [⟨1, "Deposit", 1000, "Welcome bonus"⟩, ⟨2, "Deposit", 1000, "Welcome bonus"⟩]⟩

/-- A one-account ledger with an empty transaction history (derived
balance 0). -/
def emptyLedger : Ledger := ⟨[alice], []⟩

/-! General lemmas about the balance computations. -/

theorem foldl_add_eq_sum (g : Transaction → ℚ) :
    ∀ (l : List Transaction) (a : ℚ),
      l.foldl (fun acc x => acc + g x) a = a + (l.map g).sum := by
  intro l
  induction l with
  | nil => intro a; simp
  | cons hd tl ih =>
    intro a
    simp only [List.foldl_cons, List.map_cons, List.sum_cons]
    rw [ih]
    ring

theorem balanceSum_eq_sum (txns : List Transaction) :
    balanceSum txns = (txns.map txnSigned).sum := by
  simpa [balanceSum, txnSigned] using foldl_add_eq_sum txnSigned txns 0

/-- The two textual forms of the balance computation in `src/app.py` (the
`dashboard` loop and the generator-expression sum) agree. -/
theorem dashboardBalance_eq_balanceSum (txns : List Transaction) :
    dashboardBalance txns = balanceSum txns := by
  have hstep :
      (fun (total_balance : ℚ) (txn : Transaction) =>
        if txn.txn_type == "Deposit" then total_balance + txn.amount
        else total_balance - txn.amount)
      = fun acc tx =>
          acc + (if tx.txn_type == "Deposit" then tx.amount else -tx.amount) := by
    funext acc txn
    by_cases h : txn.txn_type == "Deposit" <;> simp [h, sub_eq_add_neg]
  unfold dashboardBalance balanceSum
  rw [hstep]

theorem balanceSum_append (l1 l2 : List Transaction) :
    balanceSum (l1 ++ l2) = balanceSum l1 + balanceSum l2 := by
  simp [balanceSum_eq_sum]

theorem balanceSum_singleton (t : Transaction) :
    balanceSum [t] = if t.txn_type == "Deposit" then t.amount else -t.amount := by
  simp [balanceSum]

theorem transactionsOf_set_txns (L : Ledger) (l : List Transaction) (uid : Nat) :
    transactionsOf { L with txns := L.txns ++ l } uid
      = transactionsOf L uid ++ l.filter (fun tx => tx.user_id == uid) := by
  simp [transactionsOf, List.filter_append]

theorem balanceOf_set_txns (L : Ledger) (l : List Transaction) (uid : Nat) :
    balanceOf { L with txns := L.txns ++ l } uid
      = balanceOf L uid + balanceSum (l.filter (fun tx => tx.user_id == uid)) := by
  simp [balanceOf, transactionsOf_set_txns, balanceSum_append]

/-! Evaluation lemmas on the concrete witness data. -/

theorem balanceOf_sampleLedger_alice : balanceOf sampleLedger 1 = 1000 := by
  norm_num [balanceOf, transactionsOf, sampleLedger, List.filter_cons, balanceSum]

theorem balanceOf_sampleLedger_bob : balanceOf sampleLedger 2 = 1000 := by
  norm_num [balanceOf, transactionsOf, sampleLedger, List.filter_cons, balanceSum]

theorem le_300_balanceOf_alice : (300 : ℚ) ≤ balanceOf sampleLedger 1 := by
  rw [balanceOf_sampleLedger_alice]; norm_num

theorem le_200_balanceOf_alice : (200 : ℚ) ≤ balanceOf sampleLedger 1 := by
  rw [balanceOf_sampleLedger_alice]; norm_num

theorem q_pos_300 : (0 : ℚ) < 300 := by norm_num

/-!
The claims.
-/

/-- C1: for every finite transaction history, the derived balance the
program computes (the `dashboard` loop, identical in value to the
generator-expression sum of `withdraw`, `transfer` and `betting`) equals
the sum of the amounts of the `"Deposit"` transactions minus the sum of
the amounts of all other transactions (Withdrawal, Transfer, Betting
Funding, Data Purchase, and any other kind). -/
theorem C1_balance_is_deposits_minus_others (txns : List Transaction) :
    dashboardBalance txns = sumDeposits txns - sumNonDeposits txns ∧
    balanceSum txns = sumDeposits txns - sumNonDeposits txns := by
  have main : ∀ l : List Transaction,
      balanceSum l = sumDeposits l - sumNonDeposits l := by
    intro l
    induction l with
    | nil => simp [balanceSum, sumDeposits, sumNonDeposits]
    | cons tx txns ih =>
      rw [balanceSum_eq_sum] at ih ⊢
      simp only [List.map_cons, List.sum_cons]
      by_cases h : tx.txn_type == "Deposit" <;>
        simp [sumDeposits, sumNonDeposits, List.filter_cons, h, txnSigned] at ih ⊢ <;>
        rw [show ((txns.map txnSigned).sum : ℚ)
              = sumDeposits txns - sumNonDeposits txns from by
            simpa [sumDeposits, sumNonDeposits] using ih] <;>
        simp [sumDeposits, sumNonDeposits] <;> ring
  exact ⟨(dashboardBalance_eq_balanceSum txns).trans (main txns), main txns⟩

/-- C2: concrete failing input for the claim that every category-funding
operation (Data Purchase included) rejects requests exceeding the derived
balance.  The `internet` route performs no funds-sufficiency check: on an
account with derived balance 0, a data purchase of 1000 succeeds and
appends the `"Data Purchase"` row, leaving the derived balance at -1000,
where the claim requires the operation to fail with InsufficientFunds and
append nothing. -/
theorem C2_data_purchase_skips_balance_check :
    balanceOf emptyLedger 1 = 0 ∧
    (1000 : ℚ) > balanceOf emptyLedger 1 ∧
    internet emptyLedger alice ("0801") ("₦1,000") ("wallet") 1000
      = (⟨[alice], [⟨1, "Data Purchase", 1000, "Bought ₦1,000 for 0801 on wallet"⟩]⟩,
         .success) ∧
    balanceOf (internet emptyLedger alice ("0801") ("₦1,000") ("wallet") 1000).1 1
      = -1000 := by
  have heval : internet emptyLedger alice ("0801") ("₦1,000") ("wallet") 1000
      = (⟨[alice], [⟨1, "Data Purchase", 1000, "Bought ₦1,000 for 0801 on wallet"⟩]⟩,
         .success) := by decide
  refine ⟨rfl, by decide, heval, ?_⟩
  rw [heval]
  norm_num [balanceOf, transactionsOf, List.filter_cons, balanceSum,
    (by decide : ¬ (("Data Purchase" : String) = "Deposit"))]

/-- C4, counterexample: the claim says `deposit` rejects a non-positive
amount with InvalidAmount and appends nothing; in the code there is no
positivity check at all, so a deposit of -5 succeeds and commits a
`"Deposit"` row with the negative amount. -/
theorem C4_counterexample_negative_deposit_committed :
    deposit emptyLedger alice (some (-5)) none
      = (⟨[alice], [⟨1, "Deposit", -5, "Manual deposit"⟩]⟩, .success) := by
  decide

/-- C4, amended: the operations validate only numeric parsability, not
positivity.  Each of `deposit`, `withdraw`, `transfer` and the
category-funding route rejects a missing or non-numeric amount with
InvalidAmount and appends nothing, while `deposit` commits any numeric
amount, non-positive included, so the invariant that all stored amounts
are strictly positive is not enforced by the code. -/
theorem C4_amended_only_nonnumeric_amounts_rejected
    (L : Ledger) (cu : User) (desc : Option String)
    (target company account_id : String) :
    deposit L cu none desc = (L, .invalidAmount) ∧
    withdraw L cu none desc = (L, .invalidAmount) ∧
    transfer L cu target none = (L, .invalidAmount) ∧
    betting L cu company account_id none = (L, .invalidAmount) ∧
    ∀ amount : ℚ, deposit L cu (some amount) desc
      = ({ L with txns := L.txns ++ [⟨cu.id, "Deposit", amount, "Manual deposit"⟩] },
         .success) :=
  ⟨rfl, rfl, rfl, rfl, fun _ => rfl⟩

/-- C8: in `transfer` the recipient lookup happens before the balance of
the sender is read: whenever the target account number resolves to no
user, the call returns RecipientNotFound with the ledger unchanged, for
every amount — in particular also when the amount exceeds the derived
balance of the sender, so InsufficientFunds is never reported there. -/
theorem C8_recipient_checked_before_balance
    (L : Ledger) (cu : User) (target : String) (amount : ℚ)
    (hfind : L.users.find? (fun u => u.account_number == target) = none) :
    transfer L cu target (some amount) = (L, .recipientNotFound) := by
  simp only [transfer, hfind]

/-- Witness for C8: a one-user ledger, a target account number nobody
owns, and an amount (5000) strictly above the balance of the sender (0);
the transfer still answers RecipientNotFound, not InsufficientFunds. -/
theorem C8_witness :
    emptyLedger.users.find? (fun u => u.account_number == "222222222222") = none ∧
    (5000 : ℚ) > balanceOf emptyLedger 1 ∧
    transfer emptyLedger alice ("222222222222") (some 5000)
      = (emptyLedger, .recipientNotFound) :=
  ⟨by decide, by decide,
    C8_recipient_checked_before_balance emptyLedger alice ("222222222222") 5000
      (by decide)⟩

/-- C10: `deposit` and `withdraw` never read a caller-supplied
description field — `desc` ranges over any submitted description — and
the committed `"Deposit"` row always carries the literal
`"Manual deposit"` while the committed `"Withdrawal"` row always carries
the literal `"Cash withdrawal"`. -/
theorem C10_descriptions_are_fixed
    (L : Ledger) (cu : User) (amount : ℚ) (desc : Option String)
    (hsuff : amount ≤ balanceOf L cu.id) :
    (deposit L cu (some amount) desc).1.txns
      = L.txns ++ [⟨cu.id, "Deposit", amount, "Manual deposit"⟩] ∧
    (withdraw L cu (some amount) desc).1.txns
      = L.txns ++ [⟨cu.id, "Withdrawal", amount, "Cash withdrawal"⟩] := by
  have hsuff2 : amount ≤ balanceSum (transactionsOf L cu.id) := hsuff
  refine ⟨rfl, ?_⟩
  simp only [withdraw]
  rw [if_neg (not_lt.mpr hsuff2)]

/-- Witness for C10: on the two-account sample ledger, a deposit and a
withdrawal of 200 with the caller-supplied description "my note" both
commit their fixed descriptions instead. -/
theorem C10_witness :
    (200 : ℚ) ≤ balanceOf sampleLedger alice.id ∧
    (deposit sampleLedger alice (some 200) (some ("my note"))).1.txns
      = sampleLedger.txns ++ [⟨alice.id, "Deposit", 200, "Manual deposit"⟩] ∧
    (withdraw sampleLedger alice (some 200) (some ("my note"))).1.txns
      = sampleLedger.txns ++ [⟨alice.id, "Withdrawal", 200, "Cash withdrawal"⟩] :=
  ⟨le_200_balanceOf_alice,
   (C10_descriptions_are_fixed sampleLedger alice 200 (some ("my note"))
      le_200_balanceOf_alice).1,
   (C10_descriptions_are_fixed sampleLedger alice 200 (some ("my note"))
      le_200_balanceOf_alice).2⟩

theorem q_pos_400 : (0 : ℚ) < 400 := by norm_num

theorem le_400_balanceOf_alice : (400 : ℚ) ≤ balanceOf sampleLedger 1 := by
  rw [balanceOf_sampleLedger_alice]; norm_num

/-- C3: a transfer of a positive amount from a sender with sufficient
balance to an existing distinct recipient appends exactly the two rows
together — the outflow `"Transfer"` row of the sender and the `"Deposit"`
row of the recipient, each with that amount, never just one of them — and
afterwards the derived balance of the sender has decreased by the amount
while the derived balance of the recipient has increased by it. -/
theorem C3_transfer_appends_two_rows_and_conserves
    (L : Ledger) (cu : User) (target : String) (amount : ℚ) (r : User)
    (hfind : L.users.find? (fun u => u.account_number == target) = some r)
    (hne : r.id ≠ cu.id) (hpos : 0 < amount)
    (hsuff : amount ≤ balanceOf L cu.id) :
    (transfer L cu target (some amount)).2 = .success ∧
    (transfer L cu target (some amount)).1.txns
      = L.txns
        ++ [⟨cu.id, "Transfer", amount, "Transfer to " ++ r.account_number⟩,
            ⟨r.id, "Deposit", amount, "Transfer from " ++ cu.account_number⟩] ∧
    balanceOf (transfer L cu target (some amount)).1 cu.id
      = balanceOf L cu.id - amount ∧
    balanceOf (transfer L cu target (some amount)).1 r.id
      = balanceOf L r.id + amount := by
  have hsuff2 : amount ≤ balanceSum (transactionsOf L cu.id) := hsuff
  have hres : transfer L cu target (some amount)
      = ({ L with txns := L.txns
            ++ [⟨cu.id, "Transfer", amount, "Transfer to " ++ r.account_number⟩,
                ⟨r.id, "Deposit", amount, "Transfer from " ++ cu.account_number⟩] },
         .success) := by
    simp only [transfer, hfind]
    rw [if_neg (not_lt.mpr hsuff2)]
  rw [hres]
  have hTD : (("Transfer" : String) == "Deposit") = false := by decide
  have hDD : (("Deposit" : String) == "Deposit") = true := by decide
  refine ⟨rfl, rfl, ?_, ?_⟩
  · rw [balanceOf_set_txns]
    have hfil : (([⟨cu.id, "Transfer", amount, "Transfer to " ++ r.account_number⟩,
          ⟨r.id, "Deposit", amount, "Transfer from " ++ cu.account_number⟩]
            : List Transaction).filter (fun tx => tx.user_id == cu.id))
        = [⟨cu.id, "Transfer", amount, "Transfer to " ++ r.account_number⟩] := by
      simp [List.filter_cons, hne]
    rw [hfil, balanceSum_singleton]
    simp [hTD, sub_eq_add_neg]
  · rw [balanceOf_set_txns]
    have hfil : (([⟨cu.id, "Transfer", amount, "Transfer to " ++ r.account_number⟩,
          ⟨r.id, "Deposit", amount, "Transfer from " ++ cu.account_number⟩]
            : List Transaction).filter (fun tx => tx.user_id == r.id))
        = [⟨r.id, "Deposit", amount, "Transfer from " ++ cu.account_number⟩] := by
      simp [List.filter_cons, Ne.symm hne]
    rw [hfil, balanceSum_singleton]
    simp [hDD]

/-- Witness for C3: on the two-account sample ledger (both balances
1000), alice transfers 300 to bob; the two rows are appended and the
balances become 700 and 1300. -/
theorem C3_witness :
    sampleLedger.users.find? (fun u => u.account_number == "222222222222") = some bob ∧
    bob.id ≠ alice.id ∧
    (0 : ℚ) < 300 ∧
    (300 : ℚ) ≤ balanceOf sampleLedger alice.id ∧
    ((transfer sampleLedger alice ("222222222222") (some 300)).2 = .success ∧
     (transfer sampleLedger alice ("222222222222") (some 300)).1.txns
       = sampleLedger.txns
         ++ [⟨alice.id, "Transfer", 300, "Transfer to " ++ bob.account_number⟩,
             ⟨bob.id, "Deposit", 300, "Transfer from " ++ alice.account_number⟩] ∧
     balanceOf (transfer sampleLedger alice ("222222222222") (some 300)).1 alice.id
       = balanceOf sampleLedger alice.id - 300 ∧
     balanceOf (transfer sampleLedger alice ("222222222222") (some 300)).1 bob.id
       = balanceOf sampleLedger bob.id + 300) :=
  ⟨by decide, by decide, q_pos_300, le_300_balanceOf_alice,
   C3_transfer_appends_two_rows_and_conserves sampleLedger alice ("222222222222") 300 bob
     (by decide) (by decide) q_pos_300 le_300_balanceOf_alice⟩

/-- C5: every operation that fails validation (invalid amount,
insufficient funds, recipient not found, missing fields, signup
rejection) leaves the ledger state completely unchanged — no transaction
row is appended to any account, so every derived balance is unchanged —
and in particular a transfer to a non-existent account number fails with
RecipientNotFound and changes nothing. -/
theorem C5_failed_operations_leave_ledger_unchanged
    (L : Ledger) (cu : User) (amount? : Option ℚ) (desc : Option String)
    (target company account_id phone bundle payment : String) (bundleAmount : ℚ)
    (account_type email raw_password confirm_password : String)
    (newId : Nat) (account_number : String) :
    ((deposit L cu amount? desc).2 ≠ .success → (deposit L cu amount? desc).1 = L) ∧
    ((withdraw L cu amount? desc).2 ≠ .success → (withdraw L cu amount? desc).1 = L) ∧
    ((transfer L cu target amount?).2 ≠ .success → (transfer L cu target amount?).1 = L) ∧
    ((betting L cu company account_id amount?).2 ≠ .success →
      (betting L cu company account_id amount?).1 = L) ∧
    ((internet L cu phone bundle payment bundleAmount).2 ≠ .success →
      (internet L cu phone bundle payment bundleAmount).1 = L) ∧
    ((signup L account_type email raw_password confirm_password newId account_number).2
        ≠ .success →
      (signup L account_type email raw_password confirm_password newId account_number).1
        = L) ∧
    (∀ a : ℚ, L.users.find? (fun u => u.account_number == target) = none →
      transfer L cu target (some a) = (L, .recipientNotFound)) := by
  refine ⟨?_, ?_, ?_, ?_, ?_, ?_, ?_⟩
  · rcases amount? with _ | a
    · intro _; rfl
    · intro h; exact absurd rfl h
  · rcases amount? with _ | a
    · intro _; rfl
    · simp only [withdraw]
      split
      · intro _; rfl
      · intro h; exact absurd rfl h
  · rcases amount? with _ | a
    · intro _; rfl
    · simp only [transfer]
      split
      · intro _; rfl
      · split
        · intro _; rfl
        · intro h; exact absurd rfl h
  · rcases amount? with _ | a
    · intro _; rfl
    · simp only [betting]
      split
      · intro _; rfl
      · intro h; exact absurd rfl h
  · simp only [internet]
    split
    · intro _; rfl
    · intro h; exact absurd rfl h
  · simp only [signup]
    split
    · intro _; rfl
    · split
      · intro _; rfl
      · split
        · intro _; rfl
        · split
          · intro h; exact absurd rfl h
          · intro _; rfl
  · intro a hfind
    simp only [transfer, hfind]

/-- Witness for C5: a withdrawal with an unparsable amount leaves the
sample ledger unchanged, and a transfer to the unknown account number
999999999999 answers RecipientNotFound with the ledger unchanged. -/
theorem C5_witness :
    (withdraw sampleLedger alice none none).2 ≠ .success ∧
    (withdraw sampleLedger alice none none).1 = sampleLedger ∧
    sampleLedger.users.find? (fun u => u.account_number == "999999999999") = none ∧
    transfer sampleLedger alice ("999999999999") (some 7)
      = (sampleLedger, .recipientNotFound) :=
  ⟨by decide,
   (C5_failed_operations_leave_ledger_unchanged sampleLedger alice none none
      ("999999999999") ("c") ("a") ("p") ("b") ("m") 7 ("user") ("e@x") ("pw") ("pw") 9
      ("123456789012")).2.1 (by decide),
   by decide,
   (C5_failed_operations_leave_ledger_unchanged sampleLedger alice none none
      ("999999999999") ("c") ("a") ("p") ("b") ("m") 7 ("user") ("e@x") ("pw") ("pw") 9
      ("123456789012")).2.2.2.2.2.2 7 (by decide)⟩

/-- C6: a successful signup seeds the fresh account with exactly one
`"Deposit"` transaction of the configured welcome amount 1000.0 and
description `"Welcome bonus"`, so the derived balance of the account
immediately after opening, before any other transaction, is exactly
1000. -/
theorem C6_signup_seeds_welcome_deposit
    (L : Ledger) (account_type email raw_password confirm_password : String)
    (newId : Nat) (account_number : String)
    (htype : account_type = "user" ∨ account_type = "merchant")
    (hemail : email ≠ "") (hpw : raw_password ≠ "")
    (hcpw : confirm_password = "" ∨ confirm_password = raw_password)
    (hdup : L.users.find? (fun u => u.email == email) = none)
    (hfresh : transactionsOf L newId = []) :
    (signup L account_type email raw_password confirm_password newId account_number).2
      = .success ∧
    (signup L account_type email raw_password confirm_password newId account_number).1.txns
      = L.txns ++ [⟨newId, "Deposit", 1000, "Welcome bonus"⟩] ∧
    balanceOf (signup L account_type email raw_password confirm_password newId
        account_number).1 newId = 1000 := by
  have h1 : (email == "") = false := beq_eq_false_iff_ne.mpr hemail
  have h2 : (raw_password == "") = false := beq_eq_false_iff_ne.mpr hpw
  have h3 : (confirm_password != "" && raw_password != confirm_password) = false := by
    rcases hcpw with h | h
    · subst h; simp
    · subst h; simp
  have h4 : (L.users.find? (fun u => u.email == email)).isSome = false := by
    rw [hdup]; rfl
  have h5 : (account_type == "user" || account_type == "merchant") = true := by
    rcases htype with h | h <;> simp [h]
  have hres : signup L account_type email raw_password confirm_password newId account_number
      = ({ users := L.users ++ [⟨newId, account_number, email⟩],
           txns := L.txns ++ [⟨newId, "Deposit", 1000, "Welcome bonus"⟩] }, .success) := by
    simp [signup, h1, h2, h3, h4, h5]
  rw [hres]
  refine ⟨rfl, rfl, ?_⟩
  have hfresh2 : L.txns.filter (fun tx => tx.user_id == newId) = [] := hfresh
  simp only [balanceOf, transactionsOf, List.filter_append, hfresh2, List.nil_append]
  norm_num [List.filter_cons, balanceSum]

/-- Witness for C6: carol signs up on the one-account ledger with fresh
primary key 7; the seed deposit is appended and the balance of the new
account is exactly 1000. -/
theorem C6_witness :
    (("user" : String) = "user" ∨ ("user" : String) = "merchant") ∧
    ("carol@example.com" : String) ≠ "" ∧
    ("pw" : String) ≠ "" ∧
    (("pw" : String) = "" ∨ ("pw" : String) = "pw") ∧
    emptyLedger.users.find? (fun u => u.email == "carol@example.com") = none ∧
    transactionsOf emptyLedger 7 = [] ∧
    ((signup emptyLedger ("user") ("carol@example.com") ("pw") ("pw") 7
        ("123456789012")).2 = .success ∧
     (signup emptyLedger ("user") ("carol@example.com") ("pw") ("pw") 7
        ("123456789012")).1.txns
       = emptyLedger.txns ++ [⟨7, "Deposit", 1000, "Welcome bonus"⟩] ∧
     balanceOf (signup emptyLedger ("user") ("carol@example.com") ("pw") ("pw") 7
        ("123456789012")).1 7 = 1000) :=
  ⟨Or.inl rfl, by decide, by decide, Or.inr rfl, by decide, rfl,
   C6_signup_seeds_welcome_deposit emptyLedger ("user") ("carol@example.com") ("pw")
     ("pw") 7 ("123456789012") (Or.inl rfl) (by decide) (by decide) (Or.inr rfl)
     (by decide) rfl⟩

/-- C7: a self transfer is allowed: when the recipient lookup at the own
account number of the sender finds the sender, a positive amount within
the balance succeeds, appends the two usual rows — the `"Transfer"`
outflow and the `"Deposit"` inflow, both on that account — and leaves the
derived balance of the account unchanged. -/
theorem C7_self_transfer_allowed
    (L : Ledger) (cu : User) (amount : ℚ)
    (hfind : L.users.find? (fun u => u.account_number == cu.account_number) = some cu)
    (hpos : 0 < amount) (hsuff : amount ≤ balanceOf L cu.id) :
    (transfer L cu cu.account_number (some amount)).2 = .success ∧
    (transfer L cu cu.account_number (some amount)).1.txns
      = L.txns
        ++ [⟨cu.id, "Transfer", amount, "Transfer to " ++ cu.account_number⟩,
            ⟨cu.id, "Deposit", amount, "Transfer from " ++ cu.account_number⟩] ∧
    balanceOf (transfer L cu cu.account_number (some amount)).1 cu.id
      = balanceOf L cu.id := by
  have hsuff2 : amount ≤ balanceSum (transactionsOf L cu.id) := hsuff
  have hres : transfer L cu cu.account_number (some amount)
      = ({ L with txns := L.txns
            ++ [⟨cu.id, "Transfer", amount, "Transfer to " ++ cu.account_number⟩,
                ⟨cu.id, "Deposit", amount, "Transfer from " ++ cu.account_number⟩] },
         .success) := by
    simp only [transfer, hfind]
    rw [if_neg (not_lt.mpr hsuff2)]
  rw [hres]
  refine ⟨rfl, rfl, ?_⟩
  rw [balanceOf_set_txns]
  have hTD : (("Transfer" : String) == "Deposit") = false := by decide
  have hfil : (([⟨cu.id, "Transfer", amount, "Transfer to " ++ cu.account_number⟩,
        ⟨cu.id, "Deposit", amount, "Transfer from " ++ cu.account_number⟩]
          : List Transaction).filter (fun tx => tx.user_id == cu.id))
      = [⟨cu.id, "Transfer", amount, "Transfer to " ++ cu.account_number⟩,
         ⟨cu.id, "Deposit", amount, "Transfer from " ++ cu.account_number⟩] := by
    simp [List.filter_cons]
  rw [hfil]
  have hzero : balanceSum
      [⟨cu.id, "Transfer", amount, "Transfer to " ++ cu.account_number⟩,
       ⟨cu.id, "Deposit", amount, "Transfer from " ++ cu.account_number⟩] = 0 := by
    simp [balanceSum_eq_sum, txnSigned, hTD]
  rw [hzero]
  ring

/-- Witness for C7: alice transfers 400 to her own account number on the
sample ledger; the call succeeds, both rows land on her account and her
balance stays 1000. -/
theorem C7_witness :
    sampleLedger.users.find? (fun u => u.account_number == alice.account_number)
      = some alice ∧
    (0 : ℚ) < 400 ∧
    (400 : ℚ) ≤ balanceOf sampleLedger alice.id ∧
    ((transfer sampleLedger alice alice.account_number (some 400)).2 = .success ∧
     (transfer sampleLedger alice alice.account_number (some 400)).1.txns
       = sampleLedger.txns
         ++ [⟨alice.id, "Transfer", 400, "Transfer to " ++ alice.account_number⟩,
             ⟨alice.id, "Deposit", 400, "Transfer from " ++ alice.account_number⟩] ∧
     balanceOf (transfer sampleLedger alice alice.account_number (some 400)).1 alice.id
       = balanceOf sampleLedger alice.id) :=
  ⟨by decide, q_pos_400, le_400_balanceOf_alice,
   C7_self_transfer_allowed sampleLedger alice 400 (by decide) q_pos_400
     le_400_balanceOf_alice⟩

/-- C9: `deposit`, `withdraw` and the category-funding routes (`betting`
and `internet`) append their single new row only to the transaction list
of the invoking account: for every other account the transaction list,
and therefore the derived balance, is unchanged by the operation. -/
theorem C9_single_account_operations_frame
    (L : Ledger) (cu : User) (other : Nat) (hne : other ≠ cu.id)
    (amount? : Option ℚ) (desc : Option String)
    (company account_id phone bundle payment : String) (bundleAmount : ℚ) :
    (transactionsOf (deposit L cu amount? desc).1 other = transactionsOf L other ∧
      balanceOf (deposit L cu amount? desc).1 other = balanceOf L other) ∧
    (transactionsOf (withdraw L cu amount? desc).1 other = transactionsOf L other ∧
      balanceOf (withdraw L cu amount? desc).1 other = balanceOf L other) ∧
    (transactionsOf (betting L cu company account_id amount?).1 other
        = transactionsOf L other ∧
      balanceOf (betting L cu company account_id amount?).1 other = balanceOf L other) ∧
    (transactionsOf (internet L cu phone bundle payment bundleAmount).1 other
        = transactionsOf L other ∧
      balanceOf (internet L cu phone bundle payment bundleAmount).1 other
        = balanceOf L other) := by
  have hframe : ∀ t : Transaction, t.user_id = cu.id →
      transactionsOf { L with txns := L.txns ++ [t] } other = transactionsOf L other := by
    intro t ht
    rw [transactionsOf_set_txns]
    have hf : (t.user_id == other) = false := by
      rw [ht]
      exact beq_eq_false_iff_ne.mpr (Ne.symm hne)
    simp [List.filter_cons, hf]
  have hbal : ∀ M : Ledger,
      transactionsOf M other = transactionsOf L other →
      balanceOf M other = balanceOf L other := by
    intro M h
    simp only [balanceOf, h]
  have hdep : transactionsOf (deposit L cu amount? desc).1 other
      = transactionsOf L other := by
    rcases amount? with _ | a
    · rfl
    · exact hframe _ rfl
  have hwd : transactionsOf (withdraw L cu amount? desc).1 other
      = transactionsOf L other := by
    rcases amount? with _ | a
    · rfl
    · simp only [withdraw]
      split
      · rfl
      · exact hframe _ rfl
  have hbet : transactionsOf (betting L cu company account_id amount?).1 other
      = transactionsOf L other := by
    rcases amount? with _ | a
    · rfl
    · simp only [betting]
      split
      · rfl
      · exact hframe _ rfl
  have hint : transactionsOf (internet L cu phone bundle payment bundleAmount).1 other
      = transactionsOf L other := by
    simp only [internet]
    split
    · rfl
    · exact hframe _ rfl
  exact ⟨⟨hdep, hbal _ hdep⟩, ⟨hwd, hbal _ hwd⟩, ⟨hbet, hbal _ hbet⟩, ⟨hint, hbal _ hint⟩⟩

/-- Witness for C9: alice runs a deposit, a withdrawal, a betting funding
and a data purchase on the sample ledger; the transaction list and the
balance of bob (account 2) are untouched by each of them. -/
theorem C9_witness :
    (2 : Nat) ≠ alice.id ∧
    ((transactionsOf (deposit sampleLedger alice (some 50) none).1 2
        = transactionsOf sampleLedger 2 ∧
      balanceOf (deposit sampleLedger alice (some 50) none).1 2
        = balanceOf sampleLedger 2) ∧
     (transactionsOf (withdraw sampleLedger alice (some 50) none).1 2
        = transactionsOf sampleLedger 2 ∧
      balanceOf (withdraw sampleLedger alice (some 50) none).1 2
        = balanceOf sampleLedger 2) ∧
     (transactionsOf (betting sampleLedger alice ("Bet9ja") ("A1") (some 50)).1 2
        = transactionsOf sampleLedger 2 ∧
      balanceOf (betting sampleLedger alice ("Bet9ja") ("A1") (some 50)).1 2
        = balanceOf sampleLedger 2) ∧
     (transactionsOf (internet sampleLedger alice ("0801") ("₦500") ("card") 50).1 2
        = transactionsOf sampleLedger 2 ∧
      balanceOf (internet sampleLedger alice ("0801") ("₦500") ("card") 50).1 2
        = balanceOf sampleLedger 2)) :=
  ⟨by decide,
   C9_single_account_operations_frame sampleLedger alice 2 (by decide) (some 50) none
     ("Bet9ja") ("A1") ("0801") ("₦500") ("card") 50⟩
